import Mathlib

/-!
Shallow embedding of the fraud-scoring engine of the transaction
anomaly-detection service (`app/services/anomaly_detector.py`), together
with the model-registry lifecycle (`AnomalyDetector.load_model`,
`AnomalyDetector.is_model_loaded`) and the input/output schemas
(`app/api/schemas.py`).

Modelling conventions:
* Python floats are idealised as rationals (`ℚ`); none of the verified
  properties hinges on floating-point rounding behaviour.
* Python's builtin `hash` on strings (process-seeded SipHash) is an
  external function; the embedding takes it as an explicit parameter
  `pyHash : String → Int`.  CPython fixes `hash("") = 0`; theorems that
  need this fact carry it as a hypothesis.  Python's `%` on integers with
  a positive modulus agrees with `Int.emod`, which is `%` on `Int` here.
* `str(transaction)` (used only for the hash-derived response id) is an
  external function as well, the parameter `pyStr`.
* `numpy.sqrt`, applied to the per-column variances inside
  `StandardScaler`, is the parameter `sqrtFn : ℚ → ℚ` (an exact square
  root is irrational on most rationals, so it cannot be a fixed rational
  function); theorems needing facts about it state them as hypotheses.
* The loaded `IsolationForest` is opaque: its `predict` and
  `score_samples` act on each row of a matrix independently, so the model
  is embedded as a pair of per-row functions.
* `datetime.utcnow()` is wall clock time and is not modelled; the embedded
  response carries every other field of `TransactionResponse`.
-/

/-- `TransactionCreate` from `app/api/schemas.py`: `amount` (float,
required), optional `merchant`, `category` and `customer_id` strings. -/
structure TransactionCreate where
  amount : ℚ
  merchant : Option String
  category : Option String
  customer_id : Option String
deriving DecidableEq, Inhabited

/-- `TransactionResponse` from `app/api/schemas.py`, minus the wall-clock
`timestamp` field (not modelled). -/
structure TransactionResponse where
  id : Int
  amount : ℚ
  merchant : Option String
  category : Option String
  customer_id : Option String
  is_fraud : Bool
  fraud_score : ℚ
deriving DecidableEq, Inhabited

/-- Hash bucketing of one optional text field,
`anomaly_detector.py` lines 93/97/101:
`hash(str(field)) % n if field else 0`.
A `none` field and the empty string are both Python-falsy and bucket
to 0 (and CPython has `hash("") = 0`, so the empty string's bucket agrees
with its hash bucket). -/
def hashBucket (pyHash : String → Int) (n : Int) : Option String → Int
  | none => 0
  | some s => if s = "" then 0 else pyHash s % n

/-- `AnomalyDetector._extract_features` (lines 85-104): the feature row
`[amount, merchant-bucket, category-bucket, customer-bucket]`. -/
def extractFeatures (pyHash : String → Int) (t : TransactionCreate) : List ℚ :=
  [t.amount,
   (hashBucket pyHash 1000 t.merchant : ℚ),
   (hashBucket pyHash 100 t.category : ℚ),
   (hashBucket pyHash 1000 t.customer_id : ℚ)]

/-- Column mean, as fitted by `StandardScaler` (`np.mean`). -/
def colMean (c : List ℚ) : ℚ := c.sum / c.length

/-- Column population variance (`np.var`, `ddof = 0`), as fitted by
`StandardScaler`. -/
def colVar (c : List ℚ) : ℚ := (c.map (fun x => (x - colMean c) ^ 2)).sum / c.length

/-- `sklearn.preprocessing._data._handle_zeros_in_scale`: a zero scale
(the square root of a zero variance) is replaced by 1, so constant
columns are mapped to 0 instead of dividing by zero. -/
def scaleOf (sqrtFn : ℚ → ℚ) (v : ℚ) : ℚ :=
  if sqrtFn v = 0 then 1 else sqrtFn v

/-- The j-th column of a row-major matrix. -/
def matColumn (m : List (List ℚ)) (j : ℕ) : List ℚ := m.map (fun r => r.getD j 0)

/-- `StandardScaler.fit_transform`: per column, subtract the batch mean
and divide by the batch standard deviation; the statistics are re-fitted
from the given matrix on every call and then discarded. -/
def fitTransform (sqrtFn : ℚ → ℚ) (m : List (List ℚ)) : List (List ℚ) :=
  m.map (fun r => (List.range r.length).map (fun j =>
    (r.getD j 0 - colMean (matColumn m j)) / scaleOf sqrtFn (colVar (matColumn m j))))

/-- The loaded `IsolationForest`, abstracted to its interface: `predict`
labels one row (−1 anomalous, 1 normal) and `score_samples` returns its
raw outlier score; both act on the rows of a matrix independently. -/
structure ForestModel where
  predict : List ℚ → Int
  score_samples : List ℚ → ℚ

/-- The loaded scoring state that `detect` / `detect_batch` run against:
the external hash and repr functions, `np.sqrt`, the model, whether
`self._scaler` is not `None`, and `settings.FRAUD_THRESHOLD`
(`app/core/config.py`, default 0.5). -/
structure Engine where
  pyHash : String → Int
  pyStr : TransactionCreate → String
  sqrtFn : ℚ → ℚ
  model : ForestModel
  hasScaler : Bool
  threshold : ℚ

/-- Line 132 / 175: `max(0.0, min(1.0, fraud_score))`. -/
def clamp01 (x : ℚ) : ℚ := max 0 (min 1 x)

/-- Line 131 / 174:
`1 - ((anomaly_score - (-0.5)) / (0.5 - (-0.5)))`. -/
def normalizeScore (anomaly_score : ℚ) : ℚ :=
  1 - ((anomaly_score - (-(1 / 2))) / (1 / 2 - (-(1 / 2))))

/-- Round to the nearest integer, half to even (the rounding mode of
Python's builtin `round`). -/
def roundHalfEven (y : ℚ) : ℤ :=
  if 1 / 2 < y - (y.floor : ℚ) then y.floor + 1
  else if y - (y.floor : ℚ) < 1 / 2 then y.floor
  else if y.floor % 2 = 0 then y.floor else y.floor + 1

/-- Python `round(x, 4)`: round half to even at the fourth decimal. -/
def pyRound4 (x : ℚ) : ℚ := ((roundHalfEven (x * 10000) : ℤ) : ℚ) / 10000

/-- Line 135 / 177:
`prediction == -1 or fraud_score >= settings.FRAUD_THRESHOLD`. -/
def isFraudVerdict (prediction : Int) (fraud_score threshold : ℚ) : Bool :=
  (prediction == -1) || decide (threshold ≤ fraud_score)

/-- The scaled 1×4 matrix of `detect` (lines 114-121): the feature row of
the one transaction, re-scaled by `fit_transform` on that singleton batch
when a scaler is present (`if self._scaler is not None`). -/
def singleScaled (e : Engine) (t : TransactionCreate) : List ℚ :=
  let features := extractFeatures e.pyHash t
  if e.hasScaler then (fitTransform e.sqrtFn [features]).getD 0 [] else features

/-- The scaled N×4 matrix of `detect_batch` (lines 156-164): `np.vstack`
of the extracted rows, re-scaled by `fit_transform` on the batch itself
when a scaler is present. -/
def batchScaled (e : Engine) (ts : List TransactionCreate) : List (List ℚ) :=
  let m := ts.map (extractFeatures e.pyHash)
  if e.hasScaler then fitTransform e.sqrtFn m else m

/-- Score one transaction given its scaled feature row: the block that is
duplicated verbatim at lines 123-147 (single path) and 166-188 (batch
path) — predict, score, normalize, clamp, threshold, build response. -/
def respond (e : Engine) (t : TransactionCreate) (row : List ℚ) : TransactionResponse :=
  let prediction := e.model.predict row
  let anomaly_score := e.model.score_samples row
  let fraud_score := clamp01 (normalizeScore anomaly_score)
  { id := e.pyHash (e.pyStr t) % 1000000
    amount := t.amount
    merchant := t.merchant
    category := t.category
    customer_id := t.customer_id
    is_fraud := isFraudVerdict prediction fraud_score e.threshold
    fraud_score := pyRound4 fraud_score }

/-- `AnomalyDetector.detect` (lines 106-147), for a loaded engine state
(the lazy `load_model` call of lines 111-112 belongs to the registry
model below). -/
def detect (e : Engine) (t : TransactionCreate) : TransactionResponse :=
  respond e t (singleScaled e t)

/-- `AnomalyDetector.detect_batch` (lines 149-190).  On an empty batch,
`np.vstack([])` at line 158 raises
`ValueError: need at least one array to concatenate`; the uncaught
exception is embedded as `Except.error`.  Otherwise each index i of the
batch is scored from row i of the scaled matrix, mirroring
`for i, transaction in enumerate(transactions)` with `predictions[i]`
and `anomaly_scores[i]`. -/
def detect_batch (e : Engine) (transactions : List TransactionCreate) :
    Except String (List TransactionResponse) :=
  if transactions.isEmpty then
    Except.error "need at least one array to concatenate"
  else
    Except.ok ((List.range transactions.length).map (fun i =>
      respond e (transactions.getD i default) ((batchScaled e transactions).getD i [])))

/-- Hyperparameters of an `IsolationForest` object as tracked by the
registry; `_initialize_model` (lines 72-79) constructs one with
contamination 0.1, `random_state` 42 and 100 estimators. -/
structure IForestParams where
  contamination : ℚ
  random_state : Int
  n_estimators : ℕ
deriving DecidableEq, Inhabited

/-- The model built by `_initialize_model`. -/
def freshModelParams : IForestParams := ⟨1 / 10, 42, 100⟩

/-- What the artifact path yields to `load_model`: no file
(`os.path.exists` false), a deserialisation that raises, a dict artifact
(whose `model` / `scaler` entries may be absent or `None` — `dict.get`
returns `None` either way), or a legacy non-dict artifact (which may
itself be a serialised `None`). -/
inductive Artifact
  | missing
  | corrupt
  | bundle (model : Option IForestParams) (scaler : Option Unit)
  | legacy (model : Option IForestParams)
deriving DecidableEq

/-- Registry state: the class attributes `_model`, `_scaler` and
`_model_loaded` of `AnomalyDetector`.  The scaler object's internals are
not tracked, only whether one is present (`_scaler is not None`). -/
structure RegistryState where
  model : Option IForestParams
  scaler : Option Unit
  model_loaded : Bool
deriving DecidableEq

/-- The class attributes before any `load_model` call. -/
def initialRegistry : RegistryState := ⟨none, none, false⟩

/-- The state produced by the fallback `_initialize_model` (fresh
untrained model plus fresh scaler) with the loaded flag set. -/
def fallbackRegistry : RegistryState := ⟨some freshModelParams, some (), true⟩

/-- `AnomalyDetector.load_model` (lines 40-70) as a total state
transition: every branch — including the `except Exception` handler that
catches a failing deserialisation — terminates normally, so the function
never raises to its caller. -/
def load_model (art : Artifact) (_prev : RegistryState) : RegistryState :=
  match art with
  | .missing => fallbackRegistry
  | .corrupt => fallbackRegistry
  | .bundle m sc => ⟨m, sc, true⟩
  | .legacy m => ⟨m, some (), true⟩

/-- `AnomalyDetector.is_model_loaded` (lines 81-83):
`self._model_loaded and self._model is not None`. -/
def is_model_loaded (s : RegistryState) : Bool :=
  s.model_loaded && s.model.isSome

/-- Whether a deserialised artifact actually supplies a model object, so
that `_model` ends up not `None` after `load_model` (the fallback cases
always do, via `_initialize_model`). -/
def artifactYieldsModel : Artifact → Bool
  | .missing => true
  | .corrupt => true
  | .bundle m _ => m.isSome
  | .legacy m => m.isSome

deriving instance DecidableEq for Except

/-! ### Helper lemmas -/

theorem rat_floor_eq_intFloor (q : ℚ) : (q.floor : ℤ) = ⌊q⌋ := rfl

theorem clamp01_nonneg (x : ℚ) : 0 ≤ clamp01 x := le_max_left 0 _

theorem clamp01_le_one (x : ℚ) : clamp01 x ≤ 1 := by
  unfold clamp01
  exact max_le (by norm_num) (min_le_left 1 x)

theorem roundHalfEven_bounds (y : ℚ) (h0 : 0 ≤ y) (h1 : y ≤ 10000) :
    0 ≤ roundHalfEven y ∧ roundHalfEven y ≤ 10000 := by
  unfold roundHalfEven
  rw [rat_floor_eq_intFloor]
  set n : ℤ := ⌊y⌋ with hn
  have hn0 : 0 ≤ n := by rw [hn]; exact Int.floor_nonneg.mpr h0
  have hn1 : n ≤ 10000 := by
    rw [hn]
    have := Int.floor_mono h1
    simpa using this
  have hfl : (n : ℚ) ≤ y := Int.floor_le y
  constructor
  · split
    · omega
    · split
      · omega
      · split <;> omega
  · split
    · rename_i hgt
      have h2 : ((2 * n + 1 : ℤ) : ℚ) < 20000 := by push_cast; linarith
      have h3 : (2 * n + 1 : ℤ) < 20000 := by exact_mod_cast h2
      omega
    · split
      · omega
      · rename_i hngt hnlt
        have heq : y - n = 1 / 2 := le_antisymm (not_lt.mp hngt) (not_lt.mp hnlt)
        have h2 : ((2 * n + 1 : ℤ) : ℚ) ≤ 20000 := by push_cast; linarith
        have h3 : (2 * n + 1 : ℤ) ≤ 20000 := by exact_mod_cast h2
        split <;> omega

theorem pyRound4_bounds (x : ℚ) (h0 : 0 ≤ x) (h1 : x ≤ 1) :
    0 ≤ pyRound4 x ∧ pyRound4 x ≤ 1 := by
  unfold pyRound4
  have hy0 : (0 : ℚ) ≤ x * 10000 := mul_nonneg h0 (by norm_num)
  have hy1 : x * 10000 ≤ 10000 := by
    calc x * 10000 ≤ 1 * 10000 := mul_le_mul_of_nonneg_right h1 (by norm_num)
    _ = 10000 := one_mul _
  obtain ⟨hk0, hk1⟩ := roundHalfEven_bounds (x * 10000) hy0 hy1
  constructor
  · exact div_nonneg (by exact_mod_cast hk0) (by norm_num)
  · rw [div_le_one (by norm_num)]
    exact_mod_cast hk1

theorem respond_fraud_score_bounds (e : Engine) (t : TransactionCreate) (row : List ℚ) :
    0 ≤ (respond e t row).fraud_score ∧ (respond e t row).fraud_score ≤ 1 := by
  unfold respond
  exact pyRound4_bounds _ (clamp01_nonneg _) (clamp01_le_one _)

theorem fitTransform_length (sqrtFn : ℚ → ℚ) (m : List (List ℚ)) :
    (fitTransform sqrtFn m).length = m.length := by
  unfold fitTransform
  exact List.length_map _ _

theorem batchScaled_length (e : Engine) (ts : List TransactionCreate) :
    (batchScaled e ts).length = ts.length := by
  unfold batchScaled
  split
  · rw [fitTransform_length, List.length_map]
  · exact List.length_map _ _

theorem detect_batch_eq_ok (e : Engine) (ts : List TransactionCreate) (h : ts ≠ []) :
    detect_batch e ts = Except.ok ((List.range ts.length).map (fun i =>
      respond e (ts.getD i default) ((batchScaled e ts).getD i []))) := by
  unfold detect_batch
  rw [if_neg]
  simp [List.isEmpty_iff, h]

theorem detect_batch_ok_inv (e : Engine) (ts : List TransactionCreate)
    (rs : List TransactionResponse) (h : detect_batch e ts = Except.ok rs) :
    ts ≠ [] ∧ rs = (List.range ts.length).map (fun i =>
      respond e (ts.getD i default) ((batchScaled e ts).getD i [])) := by
  by_cases hts : ts = []
  · subst hts
    simp [detect_batch] at h
  · refine ⟨hts, ?_⟩
    rw [detect_batch_eq_ok e ts hts] at h
    exact (Except.ok.inj h).symm

theorem rangeMap_getD {α : Type} (n i : ℕ) (f : ℕ → α) (d : α) (h : i < n) :
    ((List.range n).map f).getD i d = f i := by
  have hlen : i < ((List.range n).map f).length := by simpa using h
  rw [List.getD_eq_getElem _ _ hlen]
  simp

theorem respond_is_fraud_iff (e : Engine) (t : TransactionCreate) (row : List ℚ) :
    (respond e t row).is_fraud = true ↔
      (e.model.predict row = -1 ∨
       e.threshold ≤ clamp01 (normalizeScore (e.model.score_samples row))) := by
  simp [respond, isFraudVerdict]

theorem isFraudVerdict_antitone (p : Int) (fs τ₁ τ₂ : ℚ) (hle : τ₁ ≤ τ₂)
    (h : isFraudVerdict p fs τ₂ = true) : isFraudVerdict p fs τ₁ = true := by
  simp [isFraudVerdict] at h ⊢
  rcases h with h | h
  · exact Or.inl h
  · exact Or.inr (hle.trans h)

/-! ### Witness fixtures -/

/-- A concrete engine for witness theorems: string-length in place of the
process hash, constant repr, identity in place of `np.sqrt`, a model
labelling every row normal (1) with raw outlier score 0, scaler present,
and the default threshold 0.5 of `app/core/config.py`. -/
def egEngine : Engine :=
  ⟨fun s => (s.length : Int), fun _ => "t", fun q => q,
   ⟨fun _ => 1, fun _ => 0⟩, true, 1 / 2⟩

/-- A concrete transaction. -/
def egTxn : TransactionCreate := ⟨7, none, none, none⟩

/-- The response `egEngine` assigns to `egTxn`: singleton-batch scaling
zeroes the feature row, the raw score 0 normalises to fraud score 1/2,
which meets the 0.5 threshold. -/
def egResp : TransactionResponse := ⟨1, 7, none, none, none, true, 1 / 2⟩

/-! ### Claim theorems -/

/-- C1: on both the single-transaction path and the batch path the fraud
score stored in every result lies in [0, 1] exactly: the raw outlier
score, whatever the model returns, goes through the affine normalisation
`1 - (raw + 0.5) / 1.0` and is then clamped to [0, 1] (so raw scores
outside [-0.5, 0.5] saturate at 0 or 1); the 4-decimal rounding applied
when the response is built keeps the bounds. -/
theorem fraud_score_unit_range :
    (∀ (e : Engine) (t : TransactionCreate),
      0 ≤ (detect e t).fraud_score ∧ (detect e t).fraud_score ≤ 1) ∧
    (∀ (e : Engine) (ts : List TransactionCreate) (rs : List TransactionResponse),
      detect_batch e ts = Except.ok rs →
        ∀ r ∈ rs, 0 ≤ r.fraud_score ∧ r.fraud_score ≤ 1) := by
  constructor
  · intro e t
    exact respond_fraud_score_bounds e t (singleScaled e t)
  · intro e ts rs h r hr
    obtain ⟨-, hrs⟩ := detect_batch_ok_inv e ts rs h
    subst hrs
    obtain ⟨i, -, hresp⟩ := List.mem_map.mp hr
    rw [← hresp]
    exact respond_fraud_score_bounds _ _ _

unseal Rat.mul Rat.add Rat.inv Rat.sub in
theorem fraud_score_unit_range_witness :
    detect_batch egEngine [egTxn] = Except.ok [egResp] ∧ egResp ∈ [egResp] ∧
      (0 ≤ egResp.fraud_score ∧ egResp.fraud_score ≤ 1) :=
  ⟨by decide, by decide,
   fraud_score_unit_range.2 egEngine [egTxn] [egResp] (by decide) egResp (by decide)⟩

/-- C5: an empty batch fails fast rather than silently returning `[]`: on
`detect_batch e []` the `np.vstack` call raises the structural
`ValueError` "need at least one array to concatenate", which propagates to
the caller; and scoring is all-or-nothing per call — whenever
`detect_batch` does return a result list it has exactly one result per
input transaction, so a structurally failing batch never yields partial
results. -/
theorem empty_batch_fails_fast :
    (∀ e : Engine, detect_batch e [] =
      Except.error "need at least one array to concatenate") ∧
    (∀ (e : Engine) (ts : List TransactionCreate) (rs : List TransactionResponse),
      detect_batch e ts = Except.ok rs → ts ≠ [] ∧ rs.length = ts.length) := by
  constructor
  · intro e
    rfl
  · intro e ts rs h
    obtain ⟨hne, hrs⟩ := detect_batch_ok_inv e ts rs h
    subst hrs
    refine ⟨hne, ?_⟩
    simp

unseal Rat.mul Rat.add Rat.inv Rat.sub in
theorem empty_batch_fails_fast_witness :
    detect_batch egEngine [egTxn] = Except.ok [egResp] ∧
      ([egTxn] ≠ ([] : List TransactionCreate) ∧ [egResp].length = [egTxn].length) :=
  ⟨by decide, empty_batch_fails_fast.2 egEngine [egTxn] [egResp] (by decide)⟩

/-- C2: `detect_batch` preserves input order: every non-empty input list
produces a result list; whenever a result list is returned it has the
input's length and its i-th element is exactly the scored result of
`transactions[i]` — in particular the amount, merchant, category and
customer_id fields of result i are copied from input i.  (The empty list
raises instead of returning, see the C5 theorem.) -/
theorem detect_batch_order_preserving :
    (∀ (e : Engine) (ts : List TransactionCreate), ts ≠ [] →
      ∃ rs, detect_batch e ts = Except.ok rs) ∧
    (∀ (e : Engine) (ts : List TransactionCreate) (rs : List TransactionResponse),
      detect_batch e ts = Except.ok rs →
        rs.length = ts.length ∧
        ∀ i, i < ts.length →
          rs.getD i default =
            respond e (ts.getD i default) ((batchScaled e ts).getD i []) ∧
          (rs.getD i default).amount = (ts.getD i default).amount ∧
          (rs.getD i default).merchant = (ts.getD i default).merchant ∧
          (rs.getD i default).category = (ts.getD i default).category ∧
          (rs.getD i default).customer_id = (ts.getD i default).customer_id) := by
  constructor
  · intro e ts h
    exact ⟨_, detect_batch_eq_ok e ts h⟩
  · intro e ts rs h
    obtain ⟨hne, hrs⟩ := detect_batch_ok_inv e ts rs h
    subst hrs
    constructor
    · simp
    · intro i hi
      rw [rangeMap_getD _ _ _ _ hi]
      exact ⟨rfl, rfl, rfl, rfl, rfl⟩

unseal Rat.mul Rat.add Rat.inv Rat.sub in
theorem detect_batch_order_preserving_witness :
    detect_batch egEngine [egTxn] = Except.ok [egResp] ∧
      [egResp].length = [egTxn].length ∧
      ([egResp].getD 0 default).amount = ([egTxn].getD 0 default).amount := by
  have h := detect_batch_order_preserving.2 egEngine [egTxn] [egResp] (by decide)
  exact ⟨by decide, h.1, (h.2 0 (by decide)).2.1⟩

/-- C3: the fraud verdict, on both paths, holds iff the model labels the
scaled feature row -1 (anomalous) or the clamped normalized fraud score
is at least the configured threshold — either signal alone suffices, and
a normal label together with a score strictly below the threshold yields
a non-fraud verdict. -/
theorem verdict_iff_label_or_threshold :
    (∀ (e : Engine) (t : TransactionCreate),
      ((detect e t).is_fraud = true ↔
        (e.model.predict (singleScaled e t) = -1 ∨
         e.threshold ≤ clamp01 (normalizeScore
           (e.model.score_samples (singleScaled e t)))))) ∧
    (∀ (e : Engine) (ts : List TransactionCreate) (rs : List TransactionResponse),
      detect_batch e ts = Except.ok rs →
        ∀ i, i < ts.length →
          ((rs.getD i default).is_fraud = true ↔
            (e.model.predict ((batchScaled e ts).getD i []) = -1 ∨
             e.threshold ≤ clamp01 (normalizeScore
               (e.model.score_samples ((batchScaled e ts).getD i [])))))) := by
  constructor
  · intro e t
    exact respond_is_fraud_iff e t (singleScaled e t)
  · intro e ts rs h i hi
    obtain ⟨-, hrs⟩ := detect_batch_ok_inv e ts rs h
    subst hrs
    rw [rangeMap_getD _ _ _ _ hi]
    exact respond_is_fraud_iff e _ _

unseal Rat.mul Rat.add Rat.inv Rat.sub in
theorem verdict_iff_label_or_threshold_witness :
    detect_batch egEngine [egTxn] = Except.ok [egResp] ∧ 0 < [egTxn].length ∧
      (([egResp].getD 0 default).is_fraud = true ↔
        (egEngine.model.predict ((batchScaled egEngine [egTxn]).getD 0 []) = -1 ∨
         egEngine.threshold ≤ clamp01 (normalizeScore
           (egEngine.model.score_samples ((batchScaled egEngine [egTxn]).getD 0 []))))) :=
  ⟨by decide, by decide,
   verdict_iff_label_or_threshold.2 egEngine [egTxn] [egResp] (by decide) 0 (by decide)⟩

/-- C9: decision monotonicity for the policy of line 135/177: an anomalous
label (-1) forces a fraud verdict at every threshold; a fraud verdict at a
higher threshold persists at any lower threshold (the decision is antitone
in the threshold); any threshold-sensitivity comes only from the
probability branch (verdicts for label -1 never change with the
threshold); and the same antitonicity holds for full `detect` results of
engines differing only in their threshold. -/
theorem decision_threshold_monotone :
    (∀ (fs τ : ℚ), isFraudVerdict (-1) fs τ = true) ∧
    (∀ (p : Int) (fs τ₁ τ₂ : ℚ), τ₁ ≤ τ₂ →
      isFraudVerdict p fs τ₂ = true → isFraudVerdict p fs τ₁ = true) ∧
    (∀ (p : Int) (fs τ₁ τ₂ : ℚ),
      isFraudVerdict p fs τ₁ ≠ isFraudVerdict p fs τ₂ → p ≠ -1) ∧
    (∀ (e : Engine) (t : TransactionCreate) (τ₁ τ₂ : ℚ), τ₁ ≤ τ₂ →
      (detect { e with threshold := τ₂ } t).is_fraud = true →
      (detect { e with threshold := τ₁ } t).is_fraud = true) := by
  refine ⟨?_, ?_, ?_, ?_⟩
  · intro fs τ
    simp [isFraudVerdict]
  · exact isFraudVerdict_antitone
  · intro p fs τ₁ τ₂ hne hp
    exact hne (by simp [isFraudVerdict, hp])
  · intro e t τ₁ τ₂ hle h
    exact isFraudVerdict_antitone _ _ _ _ hle h

unseal Rat.mul Rat.add Rat.inv Rat.sub in
theorem decision_threshold_monotone_witness :
    isFraudVerdict (-1) (1 / 4) (3 / 4) = true ∧
    ((1 / 4 : ℚ) ≤ 1 / 2 ∧ isFraudVerdict 1 (1 / 2) (1 / 2) = true ∧
      isFraudVerdict 1 (1 / 2) (1 / 4) = true) ∧
    (isFraudVerdict 1 (1 / 2) (1 / 4) ≠ isFraudVerdict 1 (1 / 2) (3 / 4) ∧
      (1 : Int) ≠ -1) ∧
    ((detect { egEngine with threshold := 1 / 2 } egTxn).is_fraud = true ∧
      (detect { egEngine with threshold := 1 / 4 } egTxn).is_fraud = true) :=
  ⟨decision_threshold_monotone.1 (1 / 4) (3 / 4),
   ⟨by decide, by decide,
    decision_threshold_monotone.2.1 1 (1 / 2) (1 / 4) (1 / 2) (by decide) (by decide)⟩,
   ⟨by decide,
    decision_threshold_monotone.2.2.1 1 (1 / 2) (1 / 4) (3 / 4) (by decide)⟩,
   ⟨by decide,
    decision_threshold_monotone.2.2.2 egEngine egTxn (1 / 4) (1 / 2) (by decide) (by decide)⟩⟩

/-- C6: feature extraction: the vector has constant length 4 in the fixed
order [amount, merchant-bucket, category-bucket, customer-bucket]; a
present text field is bucketed by reducing its hash into the bounded
range (merchant and customer into [0,1000), category into [0,100), the
Python `%` being `Int.emod`); an absent field buckets to 0.  The
`hash("") = 0` hypothesis is the CPython guarantee, under which the
Python-falsy empty string also agrees with its hash bucket. -/
theorem extract_features_spec (pyHash : String → Int) (t : TransactionCreate)
    (h0 : pyHash "" = 0) :
    (extractFeatures pyHash t).length = 4 ∧
    extractFeatures pyHash t =
      [t.amount, (hashBucket pyHash 1000 t.merchant : ℚ),
       (hashBucket pyHash 100 t.category : ℚ),
       (hashBucket pyHash 1000 t.customer_id : ℚ)] ∧
    (∀ n : Int, 0 < n → ∀ f : Option String,
      0 ≤ hashBucket pyHash n f ∧ hashBucket pyHash n f < n) ∧
    (∀ n : Int, hashBucket pyHash n none = 0) ∧
    (∀ (n : Int) (s : String), hashBucket pyHash n (some s) = pyHash s % n) := by
  refine ⟨rfl, rfl, ?_, ?_, ?_⟩
  · intro n hn f
    cases f with
    | none => exact ⟨le_refl 0, hn⟩
    | some s =>
      by_cases hs : s = ""
      · simpa [hashBucket, hs] using hn
      · simp only [hashBucket, hs, if_false]
        exact ⟨Int.emod_nonneg _ (by omega), Int.emod_lt_of_pos _ hn⟩
  · intro n
    rfl
  · intro n s
    by_cases hs : s = ""
    · simp [hashBucket, hs, h0]
    · simp [hashBucket, hs]

theorem extract_features_spec_witness :
    (fun s => (s.length : Int)) "" = 0 ∧
    (extractFeatures (fun s => (s.length : Int))
        ⟨5, some "abc", none, some "xy"⟩).length = 4 ∧
    extractFeatures (fun s => (s.length : Int)) ⟨5, some "abc", none, some "xy"⟩ =
      [5, 3, 0, 2] := by
  refine ⟨rfl, (extract_features_spec _ ⟨5, some "abc", none, some "xy"⟩ rfl).1, ?_⟩
  rw [(extract_features_spec (fun s => (s.length : Int))
    ⟨5, some "abc", none, some "xy"⟩ rfl).2.1]
  simp [hashBucket, show "abc".length = 3 from rfl, show "xy".length = 2 from rfl]

theorem singleScaled_eq_batch_singleton (e : Engine) (t : TransactionCreate) :
    (batchScaled e [t]).getD 0 [] = singleScaled e t := by
  unfold batchScaled singleScaled
  cases hsc : e.hasScaler <;> simp

/-- C8: score normalization and thresholding are applied identically on
the single and batch paths: for every loaded engine state and every
transaction, `detect_batch` on the one-element batch `[t]` succeeds and
its only result has the same fraud score and the same fraud verdict as
`detect t` (both paths re-fit the scaler on the same 1×4 matrix and then
run the identical normalisation block). -/
theorem single_matches_singleton_batch :
    ∀ (e : Engine) (t : TransactionCreate),
      ∃ r, detect_batch e [t] = Except.ok [r] ∧
        r.fraud_score = (detect e t).fraud_score ∧
        r.is_fraud = (detect e t).is_fraud := by
  intro e t
  refine ⟨detect e t, ?_, rfl, rfl⟩
  rw [detect_batch_eq_ok e [t] (by simp), detect, ← singleScaled_eq_batch_singleton e t]
  simp [List.range_succ]

theorem fitTransform_singleton (sqrtFn : ℚ → ℚ) (r : List ℚ) :
    fitTransform sqrtFn [r] = [List.replicate r.length 0] := by
  unfold fitTransform matColumn
  simp only [List.map_cons, List.map_nil, List.cons.injEq, and_true]
  rw [List.eq_replicate_iff]
  refine ⟨by simp, ?_⟩
  intro b hb
  obtain ⟨j, -, hj⟩ := List.mem_map.mp hb
  rw [← hj]
  simp [colMean]

theorem singleScaled_zero (e : Engine) (t : TransactionCreate) (h : e.hasScaler = true) :
    singleScaled e t = List.replicate 4 (0 : ℚ) := by
  unfold singleScaled
  rw [h]
  simp only [if_true, fitTransform_singleton]
  simp [extractFeatures]

/-- C10: on the single-transaction path the re-fitted scaler standardises
the 1×4 matrix against itself, so the scaled feature vector is the zero
vector for every transaction; consequently, for a fixed loaded engine
with a scaler present, any two transactions — whatever their amount,
merchant, category or customer — receive the same fraud score and the
same fraud verdict from `detect`. -/
theorem single_path_content_blind :
    ∀ (e : Engine), e.hasScaler = true →
      (∀ t, singleScaled e t = List.replicate 4 (0 : ℚ)) ∧
      (∀ t₁ t₂ : TransactionCreate,
        (detect e t₁).fraud_score = (detect e t₂).fraud_score ∧
        (detect e t₁).is_fraud = (detect e t₂).is_fraud) := by
  intro e h
  refine ⟨fun t => singleScaled_zero e t h, ?_⟩
  intro t₁ t₂
  have h1 := singleScaled_zero e t₁ h
  have h2 := singleScaled_zero e t₂ h
  constructor <;> simp [detect, respond, h1, h2]

unseal Rat.mul Rat.add Rat.inv Rat.sub in
theorem single_path_content_blind_witness :
    egEngine.hasScaler = true ∧
      ((detect egEngine ⟨1, some "alice", some "grocery", some "c1"⟩).fraud_score =
        (detect egEngine ⟨99999, none, none, none⟩).fraud_score ∧
       (detect egEngine ⟨1, some "alice", some "grocery", some "c1"⟩).is_fraud =
        (detect egEngine ⟨99999, none, none, none⟩).is_fraud) :=
  ⟨rfl, (single_path_content_blind egEngine rfl).2 _ _⟩

theorem clamp01_normalize_neg_one : clamp01 (normalizeScore (-1)) = 1 := by
  norm_num [clamp01, normalizeScore, min_def, max_def]

theorem clamp01_normalize_zero : clamp01 (normalizeScore 0) = 1 / 2 := by
  norm_num [clamp01, normalizeScore, min_def, max_def]

theorem pyRound4_one : pyRound4 1 = 1 := by
  unfold pyRound4 roundHalfEven
  rw [rat_floor_eq_intFloor]
  have h : ((1 : ℚ) * 10000) = ((10000 : ℤ) : ℚ) := by norm_num
  rw [h, Int.floor_intCast]
  norm_num

theorem pyRound4_half : pyRound4 (1 / 2) = 1 / 2 := by
  unfold pyRound4 roundHalfEven
  rw [rat_floor_eq_intFloor]
  have h : ((1 / 2 : ℚ) * 10000) = ((5000 : ℤ) : ℚ) := by norm_num
  rw [h, Int.floor_intCast]
  norm_num

theorem scaleOf_one_ne_zero (sqrtFn : ℚ → ℚ) : scaleOf sqrtFn 1 ≠ 0 := by
  unfold scaleOf
  split
  · exact one_ne_zero
  · rename_i hz
    exact hz

theorem fitTransform_pair_example (sqrtFn : ℚ → ℚ) :
    fitTransform sqrtFn [[(1 : ℚ), 0, 0, 0], [3, 0, 0, 0]] =
      [[-1 / scaleOf sqrtFn 1, 0, 0, 0], [1 / scaleOf sqrtFn 1, 0, 0, 0]] := by
  have hcm : colMean [(1 : ℚ), 3] = 2 := by norm_num [colMean]
  have hcv : colVar [(1 : ℚ), 3] = 1 := by norm_num [colVar, colMean]
  have hcm0 : colMean [(0 : ℚ), 0] = 0 := by norm_num [colMean]
  have hcv0 : colVar [(0 : ℚ), 0] = 0 := by norm_num [colVar, colMean]
  unfold fitTransform matColumn
  simp [List.range_succ, hcm, hcv, hcm0, hcv0]
  norm_num

theorem batchScaled_pair_row0 (pyHash : String → Int) (pyStr : TransactionCreate → String)
    (sqrtFn : ℚ → ℚ) (M : ForestModel) (τ : ℚ) :
    (batchScaled (Engine.mk pyHash pyStr sqrtFn M true τ)
        [⟨1, none, none, none⟩, ⟨3, none, none, none⟩]).getD 0 [] =
      [-1 / scaleOf sqrtFn 1, 0, 0, 0] := by
  unfold batchScaled
  simp only [List.map_cons, List.map_nil]
  rw [show extractFeatures pyHash ⟨1, none, none, none⟩ = [(1 : ℚ), 0, 0, 0] from
    by simp [extractFeatures, hashBucket]]
  rw [show extractFeatures pyHash ⟨3, none, none, none⟩ = [(3 : ℚ), 0, 0, 0] from
    by simp [extractFeatures, hashBucket]]
  simp only [if_true]
  rw [fitTransform_pair_example]
  rfl

/-- C7: scaling is batch-relative because `fit_transform` re-fits the
scaler statistics on every call: there are a transaction and a co-scored
batch containing it whose scaled features differ between the
single-transaction path and the batch path whatever the loaded model is,
and a model for which the resulting fraud scores differ as well — scoring
is a function of (transaction, co-scored batch), not of the transaction
alone. -/
theorem score_depends_on_batch :
    ∀ (pyHash : String → Int) (pyStr : TransactionCreate → String)
      (sqrtFn : ℚ → ℚ) (τ : ℚ),
      ∃ (t : TransactionCreate) (ts : List TransactionCreate) (i : ℕ),
        i < ts.length ∧ ts.getD i default = t ∧
        (∀ M : ForestModel,
          singleScaled (Engine.mk pyHash pyStr sqrtFn M true τ) t ≠
            (batchScaled (Engine.mk pyHash pyStr sqrtFn M true τ) ts).getD i []) ∧
        ∃ (M : ForestModel) (rs : List TransactionResponse),
          detect_batch (Engine.mk pyHash pyStr sqrtFn M true τ) ts = Except.ok rs ∧
          (rs.getD i default).fraud_score ≠
            (detect (Engine.mk pyHash pyStr sqrtFn M true τ) t).fraud_score := by
  intro pyHash pyStr sqrtFn τ
  have hne0 : (-1 : ℚ) / scaleOf sqrtFn 1 ≠ 0 :=
    div_ne_zero (by norm_num) (scaleOf_one_ne_zero sqrtFn)
  refine ⟨⟨1, none, none, none⟩, [⟨1, none, none, none⟩, ⟨3, none, none, none⟩], 0,
    by norm_num, rfl, ?_, ?_⟩
  · intro M heq
    rw [show singleScaled (Engine.mk pyHash pyStr sqrtFn M true τ) ⟨1, none, none, none⟩ =
        [0, 0, 0, 0] from by rw [singleScaled_zero _ _ rfl]; rfl,
      batchScaled_pair_row0] at heq
    exact hne0 ((List.cons.inj heq).1).symm
  · refine ⟨⟨fun _ => 1, fun row => if row.getD 0 0 = 0 then 0 else -1⟩, _,
      detect_batch_eq_ok _ _ (by simp), ?_⟩
    rw [rangeMap_getD _ _ _ _ (by norm_num)]
    rw [show ([(⟨1, none, none, none⟩ : TransactionCreate),
      ⟨3, none, none, none⟩].getD 0 default) = ⟨1, none, none, none⟩ from rfl]
    rw [batchScaled_pair_row0, detect]
    rw [show singleScaled (Engine.mk pyHash pyStr sqrtFn
        ⟨fun _ => 1, fun row => if row.getD 0 0 = 0 then 0 else -1⟩ true τ)
        ⟨1, none, none, none⟩ = [0, 0, 0, 0] from by rw [singleScaled_zero _ _ rfl]; rfl]
    simp only [respond]
    simp only [List.getD_cons_zero, hne0, if_false, if_true, if_pos rfl]
    rw [clamp01_normalize_neg_one, clamp01_normalize_zero, pyRound4_one, pyRound4_half]
    norm_num

/-- C4 counterexample: a successfully deserialised dict artifact with no
`model` entry makes `load_model` complete with `_model = None`
(`model_data.get('model')` returns `None` and no exception fires the
fallback), so `is_model_loaded()` is false right after `load_model`
completes — refuting the claim that `is_ready()` is true after every
completed load. -/
theorem load_bundle_missing_model_not_ready :
    is_model_loaded (load_model (Artifact.bundle none none) initialRegistry) = false := rfl

/-- C4 (amended): `load_model` never raises (it is a total transition) and
always sets the loaded flag; when the artifact is missing or
deserialisation fails it falls back to exactly the freshly initialized
state — an untrained IsolationForest with contamination 0.1, random seed
42 and 100 estimators, plus a fresh scaler — after which
`is_model_loaded()` is true, in particular for a nonexistent path.  In
general, however, `is_model_loaded()` holds after `load_model` iff the
load actually yielded a model object: a deserialised bundle without a
`model` entry (or a legacy artifact deserialising to `None`) leaves
`_model = None` and `is_model_loaded()` false. -/
theorem load_model_amended_spec :
    ∀ (art : Artifact) (s : RegistryState),
      (load_model art s).model_loaded = true ∧
      ((art = Artifact.missing ∨ art = Artifact.corrupt) →
        load_model art s = fallbackRegistry) ∧
      fallbackRegistry = ⟨some ⟨1 / 10, 42, 100⟩, some (), true⟩ ∧
      is_model_loaded fallbackRegistry = true ∧
      is_model_loaded (load_model art s) = artifactYieldsModel art := by
  intro art s
  exact ⟨by cases art <;> rfl, by rintro (rfl | rfl) <;> rfl, rfl, rfl,
    by cases art <;> rfl⟩

theorem load_model_amended_spec_witness :
    (Artifact.missing = Artifact.missing ∨ Artifact.missing = Artifact.corrupt) ∧
    (load_model Artifact.missing initialRegistry).model_loaded = true ∧
    load_model Artifact.missing initialRegistry = fallbackRegistry ∧
    is_model_loaded (load_model Artifact.missing initialRegistry) = true :=
  ⟨Or.inl rfl,
   (load_model_amended_spec Artifact.missing initialRegistry).1,
   (load_model_amended_spec Artifact.missing initialRegistry).2.1 (Or.inl rfl),
   by rw [(load_model_amended_spec Artifact.missing initialRegistry).2.1 (Or.inl rfl)]; rfl⟩
